import Mathlib

/-!
Verification development for the clip-stitcher pipeline.

The definitions below are a shallow embedding of the repository's Python
sources:
  * `src/utils/youtube.py` (and the identical copy in `src/stitch.py`):
    `parse_youtube_url`;
  * `src/utils/video_stitcher.py`: `stitch_videos_simple`,
    `stitch_videos_with_transitions`, `stitch_videos`;
  * `src/utils/legacy_processor.py` / `src/stitch.py`: the per-reference
    processing loop, the final-assembly call, and the scratch-directory
    lifecycle (`tempfile.mkdtemp` / `finally: shutil.rmtree`);
  * `src/utils/video_processor.py`: `process_video_clip`;
    `src/stitch.py`: `download_video_segment`.

External effects (subprocess invocations of yt-dlp/ffmpeg, filesystem
calls) are modeled by explicit oracle records whose boolean fields give
the outcome of each external call; the embedding computes the value the
Python function returns together with the observable trace (commands
issued, files removed) determined by those outcomes.

Python library semantics used by the sources are embedded directly:
`re.search` of the three id patterns (alternation of fixed literals
followed by a greedy `[a-zA-Z0-9_-]+` group), `urlparse` query
extraction, `parse_qs`, `int(...)`, and `str.join`.  Percent-decoding in
`parse_qs` values is modeled byte-wise (each `%XX` pair becomes the
character with that code), which agrees with CPython for ASCII data; the
`ValueError` message of `int()` is modeled without CPython's quoting of
the offending literal.  Machine strings are `String`/`List Char`,
numbers are `Nat`/`Int`.
-/

/-- Characters matched by the id-capturing group `[a-zA-Z0-9_-]` of the
patterns in `parse_youtube_url` (`src/utils/youtube.py` lines 24-28). -/
def isIdChar (c : Char) : Bool :=
  c.isAlpha || c.isDigit || c = '_' || c = '-'

/-- Match a fixed literal at the head of `s`; return the remainder after
the literal when it matches. -/
def matchLit : List Char → List Char → Option (List Char)
  | [], s => some s
  | _ :: _, [] => none
  | l :: ls, c :: cs => if l = c then matchLit ls cs else none

/-- Greedily take the maximal run of id characters (the `+` of the
capturing group). -/
def takeIdRun : List Char → List Char × List Char
  | [] => ([], [])
  | c :: cs =>
    if isIdChar c then
      let r := takeIdRun cs
      (c :: r.1, r.2)
    else ([], c :: cs)

/-- At one position, try each alternative literal in order; a literal
succeeds when it matches and is followed by at least one id character
(the group requires a nonempty match).  This is `re` alternation
semantics at a fixed starting position. -/
def tryLitsAt (lits : List (List Char)) (s : List Char) : Option (List Char) :=
  match lits with
  | [] => none
  | l :: ls =>
    match matchLit l s with
    | some rest =>
      match takeIdRun rest with
      | ([], _) => tryLitsAt ls s
      | (c :: cs, _) => some (c :: cs)
    | none => tryLitsAt ls s

/-- `re.search` for a pattern `(?:lit₁|lit₂|...)([a-zA-Z0-9_-]+)`:
scan positions left to right, return the group of the leftmost match. -/
def searchLits (lits : List (List Char)) : List Char → Option (List Char)
  | [] => tryLitsAt lits []
  | c :: cs =>
    match tryLitsAt lits (c :: cs) with
    | some r => some r
    | none => searchLits lits cs

/-- Does the literal `pat` occur at the head of `s`? -/
def subAt (pat s : List Char) : Bool := (matchLit pat s).isSome

/-- Python substring containment (`pat in s`) on character lists. -/
def listContainsSub (pat : List Char) : List Char → Bool
  | [] => subAt pat []
  | c :: cs => subAt pat (c :: cs) || listContainsSub pat cs

/-- Python substring containment (`pat in s`) on strings. -/
def strContainsSub (s pat : String) : Bool := listContainsSub pat.data s.data

/-- Everything before the first occurrence of `c` (the whole list if `c`
is absent). -/
def takeUntilChar (c : Char) : List Char → List Char
  | [] => []
  | x :: xs => if x = c then [] else x :: takeUntilChar c xs

/-- Everything after the first occurrence of `c`; `none` if absent. -/
def dropThroughChar (c : Char) : List Char → Option (List Char)
  | [] => none
  | x :: xs => if x = c then some xs else dropThroughChar c xs

/-- Split a list at every occurrence of `c` (Python `str.split(c)`). -/
def splitOnChar (c : Char) : List Char → List (List Char)
  | [] => [[]]
  | x :: xs =>
    if x = c then [] :: splitOnChar c xs
    else
      match splitOnChar c xs with
      | [] => [[x]]
      | f :: r => (x :: f) :: r

/-- Split a field at its first `=` (Python `s.split('=', 1)`); `none`
when there is no `=`. -/
def splitFirstEq : List Char → Option (List Char × List Char)
  | [] => none
  | x :: xs =>
    if x = '=' then some ([], xs)
    else (splitFirstEq xs).map (fun p => (x :: p.1, p.2))

/-- Hexadecimal digit value. -/
def hexVal (c : Char) : Option Nat :=
  if '0' ≤ c ∧ c ≤ '9' then some (c.toNat - '0'.toNat)
  else if 'a' ≤ c ∧ c ≤ 'f' then some (c.toNat - 'a'.toNat + 10)
  else if 'A' ≤ c ∧ c ≤ 'F' then some (c.toNat - 'A'.toNat + 10)
  else none

/-- Percent-decoding of `%XX` pairs, byte-wise; malformed escapes are
kept literally, as in `urllib.parse.unquote`. -/
def percentDecode : List Char → List Char
  | [] => []
  | '%' :: a :: b :: rest =>
    match hexVal a, hexVal b with
    | some ha, some hb => Char.ofNat (16 * ha + hb) :: percentDecode rest
    | _, _ => '%' :: percentDecode (a :: b :: rest)
  | '%' :: rest => '%' :: percentDecode rest
  | c :: rest => c :: percentDecode rest

/-- `urllib.parse.unquote_plus`: `+` becomes a space, then `%XX` pairs
are decoded. -/
def unquotePlus (s : List Char) : List Char :=
  percentDecode (s.map (fun c => if c = '+' then ' ' else c))

/-- ASCII whitespace stripped by Python `int(...)` (`str.strip`). -/
def isPySpace (c : Char) : Bool :=
  c = ' ' || c = '\t' || c = '\n' || c = '\r' || c = '\x0b' || c = '\x0c'

/-- Strip whitespace from both ends. -/
def stripPySpaces (s : List Char) : List Char :=
  ((s.dropWhile isPySpace).reverse.dropWhile isPySpace).reverse

/-- Digit string with optional single underscores between digits, value
accumulator; the tail of Python's base-10 integer-literal grammar. -/
def pyDigitsGo (acc : Nat) : List Char → Option Nat
  | [] => some acc
  | '_' :: c :: rest =>
    if c.isDigit then pyDigitsGo (acc * 10 + (c.toNat - '0'.toNat)) rest else none
  | ['_'] => none
  | c :: rest =>
    if c.isDigit then pyDigitsGo (acc * 10 + (c.toNat - '0'.toNat)) rest else none

/-- Nonempty digit string (Python base-10 digit grammar, ASCII digits). -/
def pyDigits : List Char → Option Nat
  | [] => none
  | c :: rest =>
    if c.isDigit then pyDigitsGo (c.toNat - '0'.toNat) rest else none

/-- A Python exception value.  In this embedding every raised exception
is a `ValueError` (the only exception the parser itself raises). -/
inductive PyExc where
  | valueError (msg : String)
deriving DecidableEq

/-- Result of a Python call: either a returned value, or an exception
propagating to the caller (`raised`).  The repository's callers wrap
`parse_youtube_url` in `try`/`except`, witnessing that failures arrive
as raised exceptions, not as returned values. -/
inductive PyResult (α : Type) where
  | ok (val : α)
  | raised (exc : PyExc)
deriving DecidableEq

/-- Is the result a propagating exception? -/
def PyResult.isRaised {α : Type} : PyResult α → Bool
  | .ok _ => false
  | .raised _ => true

/-- Python `int(s)` for base 10: strip whitespace, optional sign,
nonempty digit string with optional single underscores between digits;
anything else raises `ValueError`.  (CPython also accepts non-ASCII
digits/whitespace and quotes the literal in the error message; those
details are not modeled.) -/
def pyInt (s : List Char) : PyResult Int :=
  let t := stripPySpaces s
  match t with
  | '+' :: rest =>
    match pyDigits rest with
    | some n => .ok (Int.ofNat n)
    | none => .raised (.valueError ("invalid literal for int() with base 10: " ++ String.mk s))
  | '-' :: rest =>
    match pyDigits rest with
    | some n => .ok (-(Int.ofNat n))
    | none => .raised (.valueError ("invalid literal for int() with base 10: " ++ String.mk s))
  | _ =>
    match pyDigits t with
    | some n => .ok (Int.ofNat n)
    | none => .raised (.valueError ("invalid literal for int() with base 10: " ++ String.mk s))

/-- The query component of a URL, as computed by `urllib.parse.urlparse`:
the fragment is split off at the first `#`, then the query is everything
after the first `?` of what remains (empty if there is no `?`). -/
def urlQuery (url : String) : List Char :=
  let beforeFrag := takeUntilChar '#' url.data
  match dropThroughChar '?' beforeFrag with
  | some q => q
  | none => []

/-- `urllib.parse.parse_qsl` with default arguments: split the query on
`&`, keep only fields of the form `name=value` with nonempty value,
unquote names and values. -/
def parseQsl (query : List Char) : List (List Char × List Char) :=
  (splitOnChar '&' query).filterMap fun field =>
    match splitFirstEq field with
    | none => none
    | some (k, v) => if v = [] then none else some (unquotePlus k, unquotePlus v)

/-- First value for a key, i.e. `parse_qs(query)[key][0]` (`none` when
the key is absent, i.e. `key not in params`). -/
def qsFirst (key : List Char) (query : List Char) : Option (List Char) :=
  (((parseQsl query).filter (fun p => p.1 = key)).head?).map (fun p => p.2)

/-- The key `'t'` looked up by `parse_youtube_url`. -/
def tKey : List Char := ['t']

/-- Literal core of the first pattern's first alternative
(`youtube\.com/watch\?v=`). -/
def pattern1a : List Char := "youtube.com/watch?v=".data

/-- Literal core of the first pattern's second alternative (`youtu\.be/`). -/
def pattern1b : List Char := "youtu.be/".data

/-- Literal core of the second pattern (`youtube\.com/embed/`). -/
def pattern2 : List Char := "youtube.com/embed/".data

/-- Literal core of the third pattern (`youtube\.com/v/`). -/
def pattern3 : List Char := "youtube.com/v/".data

/-- The id-extraction loop of `parse_youtube_url`
(`src/utils/youtube.py` lines 24-35): try the three patterns in order
with `re.search`; the first pattern that matches anywhere in the URL
yields the captured id. -/
def findVideoId (url : String) : Option String :=
  match searchLits [pattern1a, pattern1b] url.data with
  | some r => some (String.mk r)
  | none =>
    match searchLits [pattern2] url.data with
    | some r => some (String.mk r)
    | none =>
      match searchLits [pattern3] url.data with
      | some r => some (String.mk r)
      | none => none

/-- `parse_youtube_url(url)` (`src/utils/youtube.py` lines 9-50, and the
identical function in `src/stitch.py` lines 37-69): extract the video id
by the three patterns, raising `ValueError` when none matches; then the
timestamp defaults to `0` and is set from `parse_qs(urlparse(url).query)['t'][0]`
only when the substring `t=` occurs in the URL, the query component is
nonempty, and the key `t` is present; `int(...)` of a malformed value
raises out of the function. -/
def parse_youtube_url (url : String) : PyResult (String × Int) :=
  match findVideoId url with
  | none => .raised (.valueError ("Could not extract video ID from URL: " ++ url))
  | some vid =>
    if strContainsSub url "t=" then
      if urlQuery url ≠ [] then
        match qsFirst tKey (urlQuery url) with
        | some val =>
          match pyInt val with
          | .ok n => .ok (vid, n)
          | .raised e => .raised e
        | none => .ok (vid, 0)
      else .ok (vid, 0)
    else .ok (vid, 0)

/-! ## Assembly engine: `src/utils/video_stitcher.py`

The three ffmpeg invocations of the stitcher are embedded as the argv
lists the Python code passes to `subprocess.run`; the outcome of each
external invocation is an oracle field of `StitchWorld`.  Durations are
modeled as integers (the Python code accepts ints or floats and only
interpolates them into the command strings; every claim at issue is
insensitive to the numeric type). -/

/-- Python `sep.join(parts)`. -/
def joinSep (sep : String) : List String → String
  | [] => ""
  | [x] => x
  | x :: y :: xs => x ++ sep ++ joinSep sep (y :: xs)

/-- The `inputs` list of `stitch_videos_with_transitions`
(`src/utils/video_stitcher.py` lines 48-49): `['-i', p]` per clip. -/
def inputArgs : List String → List String
  | [] => []
  | p :: ps => "-i" :: p :: inputArgs ps

/-- The video fade filter built for clip `i` of `n`
(`src/utils/video_stitcher.py` lines 55-67): first clip fades out at
`clip_duration - transition_duration`, last clip fades in at 0, middle
clips do both. -/
def videoFilter (i n : Nat) (td cd : Int) : String :=
  if i = 0 then
    "[" ++ toString i ++ ":v]fade=t=out:st=" ++ toString (cd - td) ++ ":d=" ++
      toString td ++ "[v" ++ toString i ++ "]"
  else if i = n - 1 then
    "[" ++ toString i ++ ":v]fade=t=in:st=0:d=" ++ toString td ++ "[v" ++ toString i ++ "]"
  else
    "[" ++ toString i ++ ":v]fade=t=in:st=0:d=" ++ toString td ++ ",fade=t=out:st=" ++
      toString (cd - td) ++ ":d=" ++ toString td ++ "[v" ++ toString i ++ "]"

/-- The audio fade filter built for clip `i` of `n` (same lines, `afade`
on the `[i:a]` stream). -/
def audioFilter (i n : Nat) (td cd : Int) : String :=
  if i = 0 then
    "[" ++ toString i ++ ":a]afade=t=out:st=" ++ toString (cd - td) ++ ":d=" ++
      toString td ++ "[a" ++ toString i ++ "]"
  else if i = n - 1 then
    "[" ++ toString i ++ ":a]afade=t=in:st=0:d=" ++ toString td ++ "[a" ++ toString i ++ "]"
  else
    "[" ++ toString i ++ ":a]afade=t=in:st=0:d=" ++ toString td ++ ",afade=t=out:st=" ++
      toString (cd - td) ++ ":d=" ++ toString td ++ "[a" ++ toString i ++ "]"

/-- `"".join(f"[v0]".. )`-style stream label chain used before the
concat filters (`src/utils/video_stitcher.py` lines 70-71). -/
def streamLabels (tag : String) (n : Nat) : String :=
  joinSep "" ((List.range n).map (fun i => "[" ++ tag ++ toString i ++ "]"))

/-- The graph-level video concatenation filter
(`src/utils/video_stitcher.py` line 70). -/
def videoConcat (n : Nat) : String :=
  streamLabels "v" n ++ "concat=n=" ++ toString n ++ ":v=1:a=0[vout]"

/-- The graph-level audio concatenation filter
(`src/utils/video_stitcher.py` line 71). -/
def audioConcat (n : Nat) : String :=
  streamLabels "a" n ++ "concat=n=" ++ toString n ++ ":v=0:a=1[aout]"

/-- `filter_complex = video_filters + audio_filters + [video_concat,
audio_concat]` (`src/utils/video_stitcher.py` line 73). -/
def filterComplexList (n : Nat) (td cd : Int) : List String :=
  (List.range n).map (fun i => videoFilter i n td cd) ++
    (List.range n).map (fun i => audioFilter i n td cd) ++
    [videoConcat n, audioConcat n]

/-- The re-encoding output arguments of the blended command
(`src/utils/video_stitcher.py` lines 78-80). -/
def blendEncodeArgs : List String :=
  ["-map", "[vout]", "-map", "[aout]",
   "-c:v", "libx264", "-preset", "medium", "-crf", "23",
   "-c:a", "aac", "-b:a", "128k"]

/-- The full blended-assembly ffmpeg argv
(`src/utils/video_stitcher.py` lines 76-82). -/
def blendCmd (ps : List String) (out : String) (td cd : Int) : List String :=
  ["ffmpeg"] ++ inputArgs ps ++
    ["-filter_complex", joinSep "; " (filterComplexList ps.length td cd)] ++
    blendEncodeArgs ++ [out, "-y"]

/-- The single-clip straight-copy argv
(`src/utils/video_stitcher.py` line 33). -/
def copyCmd (input out : String) : List String :=
  ["ffmpeg", "-i", input, "-c", "copy", out, "-y"]

/-- The plain stream-copy concatenation argv
(`src/utils/video_stitcher.py` lines 108-111); the manifest written by
`create_video_list_file` lives at `temp_dir/video_list.txt`. -/
def simpleCmd (tempDir out : String) : List String :=
  ["ffmpeg", "-f", "concat", "-safe", "0", "-i", tempDir ++ "/video_list.txt",
   "-c", "copy", "-avoid_negative_ts", "make_zero", out, "-y"]

/-- Outcomes of the stitcher's external ffmpeg invocations: the
single-clip copy, the blended filter-graph run, and the plain
concatenation run. -/
structure StitchWorld where
  copy_ok : Bool
  blend_ok : Bool
  simple_ok : Bool
deriving DecidableEq

/-- `stitch_videos_simple(clip_paths, output_path, temp_dir)`
(`src/utils/video_stitcher.py` lines 96-121): returns `False` on an
empty list, otherwise writes the manifest, runs the concat-demuxer
stream-copy command and returns its success.  The result is the returned
boolean paired with the argv trace of subprocess calls issued. -/
def stitch_videos_simple_run (w : StitchWorld) (ps : List String)
    (out tempDir : String) : Bool × List (List String) :=
  match ps with
  | [] => (false, [])
  | _ :: _ => (w.simple_ok, [simpleCmd tempDir out])

/-- `stitch_videos_with_transitions(clip_paths, output_path, temp_dir,
transition_duration, clip_duration)` (`src/utils/video_stitcher.py`
lines 23-93): `False` on an empty list; a single clip is copied with
`-c copy` and the copy's success is returned directly (a
`CalledProcessError` there is caught and yields `False`, with no further
call); for two or more clips the blended filter-graph command is run,
and on its failure the function falls back to `stitch_videos_simple`. -/
def stitch_videos_with_transitions_run (w : StitchWorld) (ps : List String)
    (out tempDir : String) (td cd : Int) : Bool × List (List String) :=
  match ps with
  | [] => (false, [])
  | [p] => (w.copy_ok, [copyCmd p out])
  | p :: q :: rest =>
    if w.blend_ok then (true, [blendCmd (p :: q :: rest) out td cd])
    else
      let fb := stitch_videos_simple_run w (p :: q :: rest) out tempDir
      (fb.1, blendCmd (p :: q :: rest) out td cd :: fb.2)

/-- `stitch_videos(...)` (`src/utils/video_stitcher.py` lines 124-129):
dispatch on `use_transitions`. -/
def stitch_videos_run (w : StitchWorld) (ps : List String) (out tempDir : String)
    (useTransitions : Bool) (td cd : Int) : Bool × List (List String) :=
  if useTransitions then stitch_videos_with_transitions_run w ps out tempDir td cd
  else stitch_videos_simple_run w ps out tempDir

/-! Spec-side description of the blended filter graph, written from the
spec's words (§4.4): for `n ≥ 2` segments the first segment gets only a
fade-out at its tail, the last only a fade-in at its head, interior
segments both, for video and audio alike, each fade using the configured
transition duration. -/

/-- Spec-side fade list for the video stream of segment `i` of `n`:
a fade-in at the head unless the segment is first, and a fade-out at the
tail unless it is last. -/
def specVideoFades (i n : Nat) (td cd : Int) : List String :=
  (if i ≠ 0 then ["fade=t=in:st=0:d=" ++ toString td] else []) ++
    (if i ≠ n - 1 then
      ["fade=t=out:st=" ++ toString (cd - td) ++ ":d=" ++ toString td] else [])

/-- Spec-side fade list for the audio stream of segment `i` of `n`. -/
def specAudioFades (i n : Nat) (td cd : Int) : List String :=
  (if i ≠ 0 then ["afade=t=in:st=0:d=" ++ toString td] else []) ++
    (if i ≠ n - 1 then
      ["afade=t=out:st=" ++ toString (cd - td) ++ ":d=" ++ toString td] else [])

/-- Spec-side rendering of segment `i`'s video filter chain. -/
def specVideoRender (i n : Nat) (td cd : Int) : String :=
  "[" ++ toString i ++ ":v]" ++ joinSep "," (specVideoFades i n td cd) ++
    "[v" ++ toString i ++ "]"

/-- Spec-side rendering of segment `i`'s audio filter chain. -/
def specAudioRender (i n : Nat) (td cd : Int) : String :=
  "[" ++ toString i ++ ":a]" ++ joinSep "," (specAudioFades i n td cd) ++
    "[a" ++ toString i ++ "]"

/-! ## Pipeline orchestrator: `src/utils/legacy_processor.py` lines 45-80
(and the identical loop in `src/stitch.py` lines 287-316). -/

/-- Python `f"{i:03d}"`: decimal rendering zero-padded to width 3. -/
def pad3 (i : Nat) : String :=
  let s := toString i
  if s.length < 3 then String.mk (List.replicate (3 - s.length) '0') ++ s else s

/-- `os.path.join(temp_dir, f"clip_{i:03d}_{video_id}.mp4")` (POSIX join
of a directory without trailing slash and a relative name). -/
def clipPath (tempDir : String) (i : Nat) (vid : String) : String :=
  tempDir ++ "/" ++ ("clip_" ++ pad3 i ++ "_" ++ vid ++ ".mp4")

/-- The per-reference loop (`src/utils/legacy_processor.py` lines 50-67):
each item is a raw URL paired with the oracle outcome of
`process_video_clip` for it; `parse_youtube_url` is the real parser
above; a raised parse exception is caught and recorded (the loop
`continue`s), a processing failure is recorded (warning printed), a
success appends the clip path.  Returns the collected clip paths and the
1-based indices recorded as failed, in order. -/
def legacyItemsLoop (tempDir : String) : Nat → List (String × Bool) → List String × List Nat
  | _, [] => ([], [])
  | i, (url, ok) :: rest =>
    let r := legacyItemsLoop tempDir (i + 1) rest
    match parse_youtube_url url with
    | .raised _ => (r.1, i :: r.2)
    | .ok (vid, _) =>
      if ok then (clipPath tempDir i vid :: r.1, r.2) else (r.1, i :: r.2)

/-- The final-assembly call (`src/utils/legacy_processor.py` lines
72-77): `stitch_videos` is invoked once, with the collected clip paths,
iff that list is nonempty (`if clip_paths:`); `none` means the engine is
never invoked. -/
def legacyAssemblyCall (tempDir : String) (items : List (String × Bool)) :
    Option (List String) :=
  let r := legacyItemsLoop tempDir 1 items
  if r.1.isEmpty then none else some r.1

/-- Spec-side contribution of one indexed item to the successes. -/
def itemSuccess (tempDir : String) (p : Nat × (String × Bool)) : Option String :=
  match parse_youtube_url p.2.1 with
  | .ok (vid, _) => if p.2.2 then some (clipPath tempDir p.1 vid) else none
  | .raised _ => none

/-- Spec-side contribution of one indexed item to the failure record. -/
def itemFailure (p : Nat × (String × Bool)) : Option Nat :=
  match parse_youtube_url p.2.1 with
  | .ok _ => if p.2.2 then none else some p.1
  | .raised _ => some p.1

/-- Spec-side successes: every item is attempted independently and the
successful clip paths are kept in original relative order. -/
def specSuccesses (tempDir : String) (start : Nat) (items : List (String × Bool)) :
    List String :=
  (items.enumFrom start).filterMap (itemSuccess tempDir)

/-- Spec-side failure record: the index of every item that failed to
parse or to process, in order. -/
def specFailures (start : Nat) (items : List (String × Bool)) : List Nat :=
  (items.enumFrom start).filterMap itemFailure

/-! ## Scratch-directory lifecycle: `src/utils/legacy_processor.py`
lines 42-90 (and `src/stitch.py` lines 284-359). -/

/-- External outcomes of one run's working-storage lifecycle: whether an
exception escapes the `try` body (the per-item loop and final assembly),
and whether the `shutil.rmtree` call in the `finally` block succeeds. -/
structure RunWorld where
  body_raises : Bool
  rmtree_ok : Bool
deriving DecidableEq

/-- Observable outcome of the lifecycle. -/
structure RunOutcome where
  dir_exists : Bool
  exception_escaped : Bool
  cleanup_warning : Bool
deriving DecidableEq

/-- The lifecycle: `tempfile.mkdtemp` creates the scratch directory;
the `try` body runs (its exception, if any, escapes after cleanup); the
`finally` block always runs and attempts `shutil.rmtree(temp_dir)`
inside a `try`/`except` that turns a removal failure into a printed
warning, leaving the directory in place. -/
def runLifecycle (w : RunWorld) : RunOutcome :=
  if w.rmtree_ok then
    { dir_exists := false, exception_escaped := w.body_raises, cleanup_warning := false }
  else
    { dir_exists := true, exception_escaped := w.body_raises, cleanup_warning := true }

/-! ## Per-clip materializer: `src/utils/video_processor.py` lines
155-213 (`process_video_clip`) and `src/stitch.py` lines 103-191
(`download_video_segment`). -/

/-- External outcomes for one `process_video_clip` call: the yt-dlp
download, the glob for the downloaded file, the overlay encode attempt,
the no-overlay fallback encode, and — observed by nobody in the code —
whether the failing encode still left a partial output file on disk. -/
structure ClipWorld where
  download_ok : Bool
  found : Bool
  overlay_ok : Bool
  encode_ok : Bool
  stray_output_left : Bool
deriving DecidableEq

/-- Observable outcome: the returned boolean and whether
`os.remove(full_video_path)` (deletion of the fetched origin asset) was
executed. -/
structure ClipOutcome where
  success : Bool
  origin_removed : Bool
deriving DecidableEq

/-- `process_video_clip(...)` (`src/utils/video_processor.py` lines
155-213): download, locate the file, try the overlay encode, fall back
to the plain encode (which raises `CalledProcessError` on failure,
caught by the outer handler which returns `False`); only after a
successful encode does control reach `os.remove(full_video_path)` and
`return True`.  The probe step `_show_source_info` swallows its own
errors and is not modeled. -/
def process_video_clip (w : ClipWorld) : ClipOutcome :=
  if !w.download_ok then { success := false, origin_removed := false }
  else if !w.found then { success := false, origin_removed := false }
  else if w.overlay_ok then { success := true, origin_removed := true }
  else if w.encode_ok then { success := true, origin_removed := true }
  else { success := false, origin_removed := false }

/-- External outcomes for one `download_video_segment` call in
`src/stitch.py`: download, file glob, hardware-accelerated extract
attempt, software fallback extract, and whether a failing extract left a
partial output file (never consulted by the code). -/
structure SegmentWorld where
  download_ok : Bool
  found : Bool
  hw_ok : Bool
  sw_ok : Bool
  stray_output_left : Bool
deriving DecidableEq

/-- `download_video_segment(...)` (`src/stitch.py` lines 103-191): same
shape — the origin asset removal at line 179 is reached only when the
hardware or software extract-and-encode subprocess succeeded; any
`CalledProcessError` is caught and the function returns `False` without
removing the origin asset. -/
def download_video_segment (w : SegmentWorld) : ClipOutcome :=
  if !w.download_ok then { success := false, origin_removed := false }
  else if !w.found then { success := false, origin_removed := false }
  else if w.hw_ok then { success := true, origin_removed := true }
  else if w.sw_ok then { success := true, origin_removed := true }
  else { success := false, origin_removed := false }

example : parse_youtube_url "https://www.youtube.com/watch?v=abc123&t=90" =
    .ok ("abc123", 90) := by decide
example : parse_youtube_url "https://youtu.be/abc123" = .ok ("abc123", 0) := by decide
example : parse_youtube_url "https://youtu.be/abc123#t=90" = .ok ("abc123", 0) := by decide
example : (parse_youtube_url "https://example.com/watch?v=abc123&t=90").isRaised = true := by
  decide
example : (parse_youtube_url "https://youtu.be/vid?t=1x").isRaised = true := by decide
example : videoFilter 0 2 31 30 = "[0:v]fade=t=out:st=-1:d=31[v0]" := by decide
example : legacyItemsLoop "tmp" 1 [("https://youtu.be/aa", true), ("bad", true),
    ("https://youtu.be/bb", false), ("https://youtu.be/cc?t=5", true)] =
    (["tmp/clip_001_aa.mp4", "tmp/clip_004_cc.mp4"], [2, 3]) := by decide

/-! ## Helper lemmas -/

/-- The per-reference loop computes exactly the spec-side successes and
failure record: every item is attempted (no failure aborts the loop),
failures are recorded against their 1-based index, successes keep their
original relative order. -/
theorem legacyItemsLoop_eq_spec (tempDir : String) (items : List (String × Bool)) :
    ∀ start : Nat,
      legacyItemsLoop tempDir start items =
        (specSuccesses tempDir start items, specFailures start items) := by
  induction items with
  | nil => intro s; rfl
  | cons hd tl ih =>
    intro s
    obtain ⟨url, ok⟩ := hd
    have ht := ih (s + 1)
    cases hp : parse_youtube_url url with
    | raised e =>
      simp [legacyItemsLoop, specSuccesses, specFailures, List.enumFrom,
        itemSuccess, itemFailure, hp, ht]
    | ok pr =>
      obtain ⟨vid, ts⟩ := pr
      cases ok <;>
        simp [legacyItemsLoop, specSuccesses, specFailures, List.enumFrom,
          itemSuccess, itemFailure, hp, ht]

/-- The code-side video fade filter coincides with the spec-side
description for every segment position of an `n ≥ 2` plan. -/
theorem videoFilter_eq_spec (i n : Nat) (td cd : Int) (h2 : 2 ≤ n) (hi : i < n) :
    videoFilter i n td cd = specVideoRender i n td cd := by
  have e1 : (":v]fade=t=out:st=" : String).data =
      (":v]" : String).data ++ ("fade=t=out:st=" : String).data := rfl
  have e2 : (":v]fade=t=in:st=0:d=" : String).data =
      (":v]" : String).data ++ ("fade=t=in:st=0:d=" : String).data := rfl
  have e3 : (",fade=t=out:st=" : String).data =
      ("," : String).data ++ ("fade=t=out:st=" : String).data := rfl
  by_cases h0 : i = 0
  · subst h0
    have hne : ¬(0 = n - 1) := by omega
    simp only [videoFilter, specVideoRender, specVideoFades, if_pos rfl, ne_eq, hne,
      not_true_eq_false, not_false_eq_true, if_true, if_false, if_neg, List.nil_append,
      joinSep]
    apply String.ext
    simp [String.data_append, List.append_assoc, e1]
  · by_cases hl : i = n - 1
    · subst hl
      simp only [videoFilter, specVideoRender, specVideoFades, if_neg h0, ne_eq, h0,
        not_false_eq_true, if_true, not_true_eq_false, if_false, if_pos rfl,
        List.append_nil, joinSep]
      apply String.ext
      simp [String.data_append, List.append_assoc, e2]
    · simp only [videoFilter, specVideoRender, specVideoFades, if_neg h0, if_neg hl,
        ne_eq, h0, hl, not_false_eq_true, if_true, List.cons_append, List.nil_append,
        joinSep]
      apply String.ext
      simp [String.data_append, List.append_assoc, e2, e3]

/-- The code-side audio fade filter coincides with the spec-side
description for every segment position of an `n ≥ 2` plan. -/
theorem audioFilter_eq_spec (i n : Nat) (td cd : Int) (h2 : 2 ≤ n) (hi : i < n) :
    audioFilter i n td cd = specAudioRender i n td cd := by
  have e1 : (":a]afade=t=out:st=" : String).data =
      (":a]" : String).data ++ ("afade=t=out:st=" : String).data := rfl
  have e2 : (":a]afade=t=in:st=0:d=" : String).data =
      (":a]" : String).data ++ ("afade=t=in:st=0:d=" : String).data := rfl
  have e3 : (",afade=t=out:st=" : String).data =
      ("," : String).data ++ ("afade=t=out:st=" : String).data := rfl
  by_cases h0 : i = 0
  · subst h0
    have hne : ¬(0 = n - 1) := by omega
    simp only [audioFilter, specAudioRender, specAudioFades, if_pos rfl, ne_eq, hne,
      not_true_eq_false, not_false_eq_true, if_true, if_false, if_neg, List.nil_append,
      joinSep]
    apply String.ext
    simp [String.data_append, List.append_assoc, e1]
  · by_cases hl : i = n - 1
    · subst hl
      simp only [audioFilter, specAudioRender, specAudioFades, if_neg h0, ne_eq, h0,
        not_false_eq_true, if_true, not_true_eq_false, if_false, if_pos rfl,
        List.append_nil, joinSep]
      apply String.ext
      simp [String.data_append, List.append_assoc, e2]
    · simp only [audioFilter, specAudioRender, specAudioFades, if_neg h0, if_neg hl,
        ne_eq, h0, hl, not_false_eq_true, if_true, List.cons_append, List.nil_append,
        joinSep]
      apply String.ext
      simp [String.data_append, List.append_assoc, e2, e3]

/-! ## Claims -/

/-- Claim C1, counterexample: on an input matching no known origin-URL
shape, `parse_youtube_url` does not return a tagged rejection — it
raises `ValueError` (modeled by `PyResult.raised`, the exception
propagating to the caller), refuting "never raises an exception, always
returning a tagged result". -/
theorem c1_counterexample :
    parse_youtube_url "not a url" =
      .raised (.valueError "Could not extract video ID from URL: not a url") ∧
    (parse_youtube_url "not a url").isRaised = true := by
  exact ⟨by decide, by decide⟩

/-- Claim C1, amended: for every input string from which no known
origin-URL shape can extract a video id, the resolver raises
`ValueError` carrying the offending raw string in its message; malformed
inputs are signaled by raised exceptions (a malformed timestamp value
also raises), never by a returned rejection value. -/
theorem c1_amended_raises_with_raw_string :
    (∀ url : String, findVideoId url = none →
      parse_youtube_url url =
        .raised (.valueError ("Could not extract video ID from URL: " ++ url))) ∧
    (parse_youtube_url "https://youtu.be/vid?t=1x").isRaised = true := by
  constructor
  · intro url h
    unfold parse_youtube_url
    rw [h]
  · decide

/-- Claim C1, witness for the amended theorem at a concrete malformed
input. -/
theorem c1_witness :
    findVideoId "nope" = none ∧
      parse_youtube_url "nope" =
        .raised (.valueError ("Could not extract video ID from URL: " ++ "nope")) :=
  ⟨by decide, c1_amended_raises_with_raw_string.1 "nope" (by decide)⟩

set_option maxRecDepth 4000 in
/-- Claim C2: with transition duration 31 ≥ clip duration 30, the
blended filter graph is built and submitted unmodified — the first
clip's fade-out starts at `30 - 31 = -1`, so a fade window with a
negative start time is passed to the filter graph; no rejection or
clamping happens anywhere in `stitch_videos_with_transitions`. -/
theorem c2_negative_fade_window :
    stitch_videos_with_transitions_run ⟨true, true, true⟩ ["a.mp4", "b.mp4"]
        "out.mp4" "tmp" 31 30 =
      (true, [blendCmd ["a.mp4", "b.mp4"] "out.mp4" 31 30]) ∧
    videoFilter 0 2 31 30 = "[0:v]fade=t=out:st=-1:d=31[v0]" ∧
    audioFilter 0 2 31 30 = "[0:a]afade=t=out:st=-1:d=31[a0]" ∧
    strContainsSub (joinSep "; " (filterComplexList 2 31 30)) "st=-1" = true := by
  exact ⟨by decide, by decide, by decide, by decide⟩

/-- Claim C3, counterexample: for the non-empty single-segment list,
when the straight-copy ffmpeg call fails the function returns `False`
immediately; the plain-concatenation fallback (which would succeed,
`simple_ok = true`) is never attempted — its command never appears in
the subprocess trace. -/
theorem c3_counterexample :
    stitch_videos_with_transitions_run ⟨false, true, true⟩ ["clip1.mp4"]
        "final.mp4" "tmpdir" 1 30 =
      (false, [copyCmd "clip1.mp4" "final.mp4"]) ∧
    ((stitch_videos_with_transitions_run ⟨false, true, true⟩ ["clip1.mp4"]
        "final.mp4" "tmpdir" 1 30).2).contains (simpleCmd "tmpdir" "final.mp4") = false := by
  exact ⟨by decide, by decide⟩

/-- Claim C3, amended: for two or more segment paths, whenever the
blended assembly subprocess fails the engine always falls back to plain
concatenation (both commands appear in the trace, in order) and the
final reported result is exactly the fallback's result; for a single
segment path, a copy failure is reported without attempting plain
concatenation. -/
theorem c3_amended_fallback :
    ∀ (c s : Bool) (p q : String) (rest : List String) (out tmp : String) (td cd : Int),
      stitch_videos_with_transitions_run ⟨c, false, s⟩ (p :: q :: rest) out tmp td cd =
        (s, [blendCmd (p :: q :: rest) out td cd, simpleCmd tmp out]) := by
  intro c s p q rest out tmp td cd
  rfl

/-- Claim C5, counterexample: a run that completes without any
exception but whose `shutil.rmtree` call fails ends with the scratch
directory still existing on disk (the code prints a warning and keeps
going), refuting "after every run the scratch directory no longer
exists". -/
theorem c5_counterexample :
    runLifecycle ⟨false, false⟩ =
      { dir_exists := true, exception_escaped := false, cleanup_warning := true } := by
  decide

/-- Claim C5, amended: removal of the scratch directory is attempted in
a `finally` block on every exit path, including when an exception
escapes the per-item loop; the directory no longer exists afterwards
exactly when the removal call itself succeeds, and a removal failure is
surfaced only as a cleanup warning. -/
theorem c5_amended_cleanup :
    ∀ w : RunWorld,
      (runLifecycle w).dir_exists = !w.rmtree_ok ∧
      (runLifecycle w).exception_escaped = w.body_raises ∧
      (runLifecycle w).cleanup_warning = !w.rmtree_ok := by
  intro w
  obtain ⟨b, r⟩ := w
  cases b <;> cases r <;> exact ⟨rfl, rfl, rfl⟩

/-- Claim C6, counterexample: both of the claim's literal inputs match
none of the three recognized origin-URL shapes (their hosts are
`example.com` / `short.example`, not the shapes' fixed hosts), so the
resolver raises instead of returning source-id `abc123`. -/
theorem c6_counterexample :
    parse_youtube_url "https://example.com/watch?v=abc123&t=90" =
      .raised (.valueError
        "Could not extract video ID from URL: https://example.com/watch?v=abc123&t=90") ∧
    parse_youtube_url "https://short.example/abc123" =
      .raised (.valueError
        "Could not extract video ID from URL: https://short.example/abc123") := by
  exact ⟨by decide, by decide⟩

/-- Claim C6, amended: on the watch-page and short-link shapes the
resolver actually recognizes, the claimed behavior holds — the
watch-page URL with `t=90` resolves to source-id `abc123` with offset
90, and the short-link URL without an offset parameter resolves to
offset 0 rather than a rejection. -/
theorem c6_amended_resolve_examples :
    parse_youtube_url "https://www.youtube.com/watch?v=abc123&t=90" = .ok ("abc123", 90) ∧
    parse_youtube_url "https://youtu.be/abc123" = .ok ("abc123", 0) := by
  exact ⟨by decide, by decide⟩

/-- Claim C8, counterexample: download and file lookup succeed, both
encode attempts fail while the failing extraction leaves a partial
output file on disk (`stray_output_left = true`, a fact the code never
consults) — and the fetched origin asset is not deleted
(`origin_removed = false`), refuting deletion "regardless of whether the
normalization/encode step succeeds or fails". -/
theorem c8_counterexample :
    process_video_clip
        { download_ok := true, found := true, overlay_ok := false, encode_ok := false,
          stray_output_left := true } =
      { success := false, origin_removed := false } := by
  decide

/-- Claim C8, amended: in both per-clip pipelines the origin asset is
removed exactly when the clip is reported successful — `os.remove` is
reached only after a successful extract-and-encode subprocess, so
deletion is conditional on the whole per-clip pipeline succeeding. -/
theorem c8_amended_removal_iff_success :
    (∀ w : ClipWorld,
      (process_video_clip w).origin_removed = (process_video_clip w).success) ∧
    (∀ w : SegmentWorld,
      (download_video_segment w).origin_removed = (download_video_segment w).success) := by
  constructor
  · intro w
    obtain ⟨a, b, c, d, e⟩ := w
    cases a <;> cases b <;> cases c <;> cases d <;> rfl
  · intro w
    obtain ⟨a, b, c, d, e⟩ := w
    cases a <;> cases b <;> cases c <;> cases d <;> rfl

/-- Claim C9: for a plan of exactly one segment, blended assembly
issues exactly one subprocess call, the straight stream-copy of that
segment to the output path; the command is independent of the
transition and clip durations (no fade filter graph is built, no
transition applied) and returns the copy's success. -/
theorem c9_single_clip_copy :
    ∀ (w : StitchWorld) (p out tmp : String) (td cd : Int),
      stitch_videos_with_transitions_run w [p] out tmp td cd =
        (w.copy_ok, [["ffmpeg", "-i", p, "-c", "copy", out, "-y"]]) := by
  intro w p out tmp td cd
  rfl

/-- Claim C4: the orchestrator's per-reference loop attempts every
reference — a parse or processing failure is recorded against that
item's 1-based index and the loop continues — and computes exactly the
spec-side successes (one clip path per successful item, in original
relative order, failed indices simply absent); the Assembly Engine call
happens exactly once, over exactly that success list, iff at least one
segment succeeded. -/
theorem c4_orchestrator_loop :
    ∀ (tempDir : String) (items : List (String × Bool)),
      legacyItemsLoop tempDir 1 items =
        (specSuccesses tempDir 1 items, specFailures 1 items) ∧
      legacyAssemblyCall tempDir items =
        (if specSuccesses tempDir 1 items = [] then none
         else some (specSuccesses tempDir 1 items)) := by
  intro tempDir items
  have h := legacyItemsLoop_eq_spec tempDir items 1
  refine ⟨h, ?_⟩
  unfold legacyAssemblyCall
  rw [h]
  rcases hs : specSuccesses tempDir 1 items with _ | ⟨a, l⟩ <;> simp

/-- Claim C7: for every plan of `n ≥ 2` segments, the blended-assembly
filter graph gives the first segment only a fade-out at its tail, the
last segment only a fade-in at its head and every interior segment both,
for video and audio alike, each fade with the configured transition
duration (the code filters equal the spec-side renders for every
position); the faded streams are joined by the explicit graph-level
`concat` filters, and the command re-encodes (`libx264`/`aac`, no
stream-copy argument) — and when the blend subprocess succeeds this
graph command is exactly what was run. -/
theorem c7_blend_structure :
    (∀ (i n : Nat) (td cd : Int), 2 ≤ n → i < n →
      videoFilter i n td cd = specVideoRender i n td cd ∧
      audioFilter i n td cd = specAudioRender i n td cd) ∧
    (∀ (c s : Bool) (p q : String) (rest : List String) (out tmp : String) (td cd : Int),
      stitch_videos_with_transitions_run ⟨c, true, s⟩ (p :: q :: rest) out tmp td cd =
        (true, [blendCmd (p :: q :: rest) out td cd])) ∧
    (∀ (n : Nat) (td cd : Int),
      filterComplexList n td cd =
        (List.range n).map (fun i => videoFilter i n td cd) ++
          (List.range n).map (fun i => audioFilter i n td cd) ++
          [videoConcat n, audioConcat n]) ∧
    (∀ (ps : List String) (out : String) (td cd : Int),
      blendCmd ps out td cd =
        ["ffmpeg"] ++ inputArgs ps ++
          ["-filter_complex", joinSep "; " (filterComplexList ps.length td cd)] ++
          blendEncodeArgs ++ [out, "-y"]) ∧
    blendEncodeArgs.contains "copy" = false ∧
    blendEncodeArgs.contains "libx264" = true ∧
    blendEncodeArgs.contains "aac" = true := by
  refine ⟨?_, ?_, ?_, ?_, by decide, by decide, by decide⟩
  · intro i n td cd h2 hi
    exact ⟨videoFilter_eq_spec i n td cd h2 hi, audioFilter_eq_spec i n td cd h2 hi⟩
  · intro c s p q rest out tmp td cd
    rfl
  · intro n td cd
    rfl
  · intro ps out td cd
    rfl

/-- Claim C7, witness: the filter/spec coincidence instantiated at the
interior position of a concrete 3-segment plan. -/
theorem c7_witness :
    (2 ≤ 3 ∧ 1 < 3) ∧
      (videoFilter 1 3 1 30 = specVideoRender 1 3 1 30 ∧
        audioFilter 1 3 1 30 = specAudioRender 1 3 1 30) :=
  ⟨⟨by decide, by decide⟩, c7_blend_structure.1 1 3 1 30 (by decide) (by decide)⟩

/-- Claim C10: whenever the resolver returns a nonzero offset, that
offset was parsed by `int` from the first value of the `t` key of the
URL's query component; when the query component has no `t` key (for
instance when `t=` occurs only in the fragment) the returned offset is
0; concretely, a short-link URL with `#t=90` in the fragment resolves to
offset 0, not 90. -/
theorem c10_offset_only_from_query :
    (∀ (url v : String) (ts : Int),
      parse_youtube_url url = .ok (v, ts) → ts ≠ 0 →
      ∃ val, qsFirst tKey (urlQuery url) = some val ∧ pyInt val = .ok ts) ∧
    (∀ (url v : String) (ts : Int),
      parse_youtube_url url = .ok (v, ts) →
      qsFirst tKey (urlQuery url) = none → ts = 0) ∧
    parse_youtube_url "https://youtu.be/abc123#t=90" = .ok ("abc123", 0) := by
  refine ⟨?_, ?_, by decide⟩
  · intro url v ts h hts
    unfold parse_youtube_url at h
    split at h
    · cases h
    · split at h
      · split at h
        · split at h
          · split at h
            · cases h
              exact ⟨_, by assumption, by assumption⟩
            · cases h
          · cases h
            exact absurd rfl hts
        · cases h
          exact absurd rfl hts
      · cases h
        exact absurd rfl hts
  · intro url v ts h hq
    unfold parse_youtube_url at h
    split at h
    · cases h
    · split at h
      · split at h
        · split at h
          · exfalso
            simp_all
          · cases h
            rfl
        · cases h
          rfl
      · cases h
        rfl

/-- Claim C10, witness: the nonzero-offset direction instantiated at a
concrete URL whose query carries `t=7`. -/
theorem c10_witness :
    ∃ val, qsFirst tKey (urlQuery "https://youtu.be/abc?t=7") = some val ∧
      pyInt val = .ok 7 :=
  c10_offset_only_from_query.1 "https://youtu.be/abc?t=7" "abc" 7 (by decide) (by decide)
